import Mathlib

/-!
Shallow embedding of `checkout_bot_py/app.py` (process_request, normalize_qty
and the data model around them).  Browser interactions are modelled through an
`Oracle` that decides, per action, whether the underlying Playwright call
succeeds or raises, and what values (page content, current URL, checkbox
state) the browser returns.  The run produces an `Except String Result`
(an `error` is an exception propagating out of `process_request`, i.e. a
fatal abort surfaced as HTTP 500 by the endpoint) together with the ordered
trace of browser interactions, with the `finally` block's context/browser
close modelled as a final `release` event.
-/

namespace CheckoutBot

/-- One recorded item outcome: `{"url": url, "qty": qty, "added": added}`
appended to `result["items"]` in `process_request`. -/
structure Item where
  url : String
  qty : String
  added : Bool
deriving Repr, DecidableEq

/-- The accumulated `result` dict of `process_request`: `items`, the
`checkout` state string (`"pending"` or `"pedido_enviado"`) and the optional
`redirect_url`. -/
structure Result where
  items : List Item
  checkout : String
  redirect_url : Option String
deriving Repr, DecidableEq

/-- The `CheckoutInfo` pydantic model: the billing fields of the request. -/
structure CheckoutInfo where
  email : String
  first_name : String
  last_name : String
  cpf : String
  cep : String
  address_1 : String
  number : String
  address_2 : Option String
  neighborhood : String
  city : String
  state : String
  phone : String
deriving Repr, DecidableEq

/-- The `Payload` pydantic model: product lines and billing info. -/
structure Payload where
  produtos : List String
  checkout : CheckoutInfo
deriving Repr, DecidableEq

deriving instance DecidableEq for Except

/-- A browser interaction performed by `process_request`, in the order the
code performs them.  `release` stands for the `finally` block's
`context.close(); browser.close()`. -/
inductive Ev where
  | goto (url : String)
  | fill (sel : String) (val : String)
  | click (sel : String)
  | press (key : String)
  | content
  | isChecked (sel : String)
  | check (sel : String)
  | readUrl
  | release
deriving Repr, DecidableEq

/-- The environment of one run: for each fallible Playwright call, whether it
succeeds or raises, and the values the browser returns.  Cart-stage calls are
keyed by the product URL being processed; the six actions of the region
(billing_state) sequence are keyed by their position `0..5`. -/
structure Oracle where
  gotoOk : String → Bool
  fillQtyOk : String → Bool
  addOk : String → Bool
  itemContent : String → String
  checkoutGotoOk : Bool
  regionOk : Nat → Bool
  checkoutContent : String
  isCheckedResult : Option Bool
  checkOk : Bool
  placeOrderOk : Bool
  finalUrl : String

/-! ### Line parsing: `linha.rsplit(':', 1)` -/

/-- `rsplit(':', 1)` on a character list: split at the LAST `':'`;
`none` models the `ValueError` raised when no separator is present. -/
def rsplitColon : List Char → Option (List Char × List Char)
  | [] => none
  | c :: cs =>
    match rsplitColon cs with
    | some (u, q) => some (c :: u, q)
    | none => if c = ':' then some ([], cs) else none

/-- `url, qty_raw = linha.rsplit(':', 1)` as a partial function on strings. -/
def parseLine (s : String) : Option (String × String) :=
  (rsplitColon s.data).map (fun p => (String.mk p.1, String.mk p.2))

/-! ### `normalize_qty`: `f"{float(q.replace(',', '.')):.2f}"`

Python's `float()` builtin is an external primitive; it is embedded here
over surrounding-whitespace-stripped input, accepting the signed
case-insensitive `inf`/`infinity`/`nan` forms and finite decimal literals —
optional sign, decimal digits with an optional fraction part, optional
decimal exponent — the finite ones evaluated exactly.  Digit-group
underscores and non-ASCII digits, which `float()` also accepts, are not
modelled: they only denote finite values that format like their plain
spellings, so no behaviour of `normalize_qty` is hidden by their absence;
binary-double rounding of `:.2f` differs from exact rounding only in ties
introduced by the binary representation, on which no claim depends. -/

/-- Fold a digit list into a natural number (most significant first). -/
def digitsToNat (ds : List Char) : Nat :=
  ds.foldl (fun acc c => 10 * acc + (c.toNat - '0'.toNat)) 0

/-- The exact value of a decimal literal, kept in scaled-integer form
`m * 10 ^ e` so that every operation below is integer arithmetic. -/
structure Dec where
  m : Int
  e : Int
deriving Repr, DecidableEq

/-- The rational number a `Dec` denotes. -/
def Dec.toRat (d : Dec) : Rat :=
  if 0 ≤ d.e then (d.m : Rat) * ((10 : Rat) ^ d.e.toNat)
  else (d.m : Rat) / ((10 : Rat) ^ (-d.e).toNat)

/-- A value of Python's `float()`: a finite (exactly represented) value, a
signed infinity, or a NaN. -/
inductive PyFloat where
  | finite (d : Dec)
  | inf (neg : Bool)
  | nan
deriving Repr, DecidableEq

/-- The whitespace characters `float()` strips from both ends of its
argument (ASCII range). -/
def isPyWS (c : Char) : Bool :=
  c = ' ' ∨ c = '\t' ∨ c = '\n' ∨ c = '\r' ∨ c = '\x0b' ∨ c = '\x0c'

/-- Strip leading and trailing whitespace. -/
def stripWS (cs : List Char) : List Char :=
  ((cs.dropWhile isPyWS).reverse.dropWhile isPyWS).reverse

/-- Parse an optional sign, returning the sign and the rest. -/
def parseSign : List Char → Int × List Char
  | '-' :: cs => (-1, cs)
  | '+' :: cs => (1, cs)
  | cs => (1, cs)

/-- Parse the exponent suffix (`e`/`E`, optional sign, nonempty digits), or
`none` when the remainder is not a valid exponent; `some 0` for the empty
remainder. -/
def parseExp : List Char → Option Int
  | [] => some 0
  | c :: cs =>
    if c = 'e' ∨ c = 'E' then
      let (s, cs1) := parseSign cs
      let ds := cs1.takeWhile Char.isDigit
      let rest := cs1.dropWhile Char.isDigit
      if ds ≠ [] ∧ rest = [] then some (s * (digitsToNat ds : Int)) else none
    else none

/-- Python `float()`: after stripping surrounding whitespace and an optional
sign, a case-insensitive `inf`/`infinity` or `nan` form, or a finite decimal
literal as its exact value; `none` models the `ValueError` on malformed
input. -/
def pyFloat (s : String) : Option PyFloat :=
  let (sign, cs) := parseSign (stripWS s.data)
  let low := cs.map Char.toLower
  if low = "inf".data ∨ low = "infinity".data then some (.inf (sign < 0))
  else if low = "nan".data then some .nan
  else
    let intDs := cs.takeWhile Char.isDigit
    let rest1 := cs.dropWhile Char.isDigit
    let (fracDs, rest2) :=
      match rest1 with
      | '.' :: cs1 => (cs1.takeWhile Char.isDigit, cs1.dropWhile Char.isDigit)
      | _ => ([], rest1)
    if intDs = [] ∧ fracDs = [] then none
    else
      match parseExp rest2 with
      | none => none
      | some e =>
        some (.finite ⟨sign * (digitsToNat (intDs ++ fracDs) : Int), e - (fracDs.length : Int)⟩)

/-- Decimal rendering with explicit fuel (structural recursion, so that the
kernel can evaluate it); `fuel ≥ n + 1` always suffices. -/
def natToDecAux : Nat → Nat → List Char
  | 0, _ => []
  | fuel + 1, n =>
    if n < 10 then [Nat.digitChar n]
    else natToDecAux fuel (n / 10) ++ [Nat.digitChar (n % 10)]

/-- Decimal rendering of a natural number (no sign, no dot), most significant
digit first. -/
def natToDec (n : Nat) : List Char :=
  natToDecAux (n + 1) n

/-- Round `num / den` (for `den > 0`) to the nearest integer, ties to even
(the rounding of Python's fixed-point formatting). -/
def roundHalfEvenDiv (num : Int) (den : Int) : Int :=
  let q : Int := num.fdiv den
  let r : Int := num - q * den
  if 2 * r < den then q
  else if 2 * r > den then q + 1
  else if q % 2 = 0 then q else q + 1

/-- The nearest integer (ties to even) to `d * 100`. -/
def Dec.scaled100 (d : Dec) : Int :=
  let e2 : Int := d.e + 2
  if 0 ≤ e2 then d.m * (10 : Int) ^ e2.toNat
  else roundHalfEvenDiv d.m ((10 : Int) ^ (-e2).toNat)

/-- Render the two-digit zero-padded fractional block `00`..`99`. -/
def twoDigits (r : Nat) : List Char :=
  [Nat.digitChar (r / 10 % 10), Nat.digitChar (r % 10)]

/-- The character list of `f"{x:.2f}"`: optional minus sign, integer part,
dot, two-digit fractional block. -/
def format2List (d : Dec) : List Char :=
  (if d.scaled100 < 0 then ['-'] else []) ++
    natToDec (d.scaled100.natAbs / 100) ++ ['.'] ++ twoDigits (d.scaled100.natAbs % 100)

/-- `f"{x:.2f}"` on a finite value: fixed-point rendering with exactly two
fractional digits. -/
def format2 (d : Dec) : String :=
  String.mk (format2List d)

/-- `f"{x:.2f}"` on any `float()` value: infinities render as `inf`/`-inf`
and NaN as `nan` (Python's fixed-point formatting of non-finite doubles). -/
def formatFixed2 : PyFloat → String
  | .finite d => format2 d
  | .inf neg => if neg then "-inf" else "inf"
  | .nan => "nan"

/-- `normalize_qty(q) = f"{float(q.replace(',', '.')):.2f}"`; `none` models
the `ValueError` that `float()` raises on a malformed numeric string (which,
in `process_request`, propagates out of the product loop). -/
def normalize_qty (q : String) : Option String :=
  (pyFloat (String.mk (q.data.map (fun c => if c = ',' then '.' else c)))).map formatFixed2

/-! ### The cart loop (for linha in data.produtos) -/

/-- Process one product line.  `ok none` = line skipped (bad format, or
navigation failure — the bare `continue` with no item recorded); `ok (some
it)` = one `Item` appended; `error` = an uncaught exception (the `ValueError`
of `normalize_qty`) propagating out of the loop.  The second component is the
browser-interaction trace of the line. -/
def doLine (o : Oracle) (linha : String) : Except String (Option Item) × List Ev :=
  match parseLine linha with
  | none => (.ok none, [])
  | some (url, qtyRaw) =>
    match normalize_qty qtyRaw with
    | none => (.error ("could not convert string to float: " ++ qtyRaw), [])
    | some qty =>
      if o.gotoOk url then
        if o.fillQtyOk url then
          if o.addOk url then
            (.ok (some ⟨url, qty, true⟩),
              [.goto url, .fill "input.qty" qty, .click "button[name=add-to-cart]"])
          else
            (.ok (some ⟨url, qty, false⟩),
              [.goto url, .fill "input.qty" qty, .click "button[name=add-to-cart]", .content])
        else
          (.ok (some ⟨url, qty, false⟩), [.goto url, .fill "input.qty" qty, .content])
      else
        (.ok none, [.goto url])

/-- The whole `for linha in data.produtos` loop: items accumulated in input
order; an uncaught per-line exception aborts the loop (and the run). -/
def cartLoop (o : Oracle) : List String → Except String (List Item) × List Ev
  | [] => (.ok [], [])
  | l :: ls =>
    match doLine o l with
    | (.error e, t) => (.error e, t)
    | (.ok none, t) => ((cartLoop o ls).1, t ++ (cartLoop o ls).2)
    | (.ok (some it), t) =>
      ((cartLoop o ls).1.map (fun its => it :: its), t ++ (cartLoop o ls).2)

/-! ### The checkout stage -/

/-- The checkout page URL (default of the `CHECKOUT_URL` env variable). -/
def CHECKOUT_URL : String := "https://naturalvalle.com.br/checkout/"

/-- The eleven `page.fill` interactions of the billing `mapping`, in the
dict's (insertion) order.  `billing_state` is not among them. -/
def fillEvents (c : CheckoutInfo) : List Ev :=
  [.fill "#billing_email" c.email,
   .fill "#billing_first_name" c.first_name,
   .fill "#billing_last_name" c.last_name,
   .fill "#billing_cpf" c.cpf,
   .fill "#billing_postcode" c.cep,
   .fill "#billing_address_1" c.address_1,
   .fill "#billing_number" c.number,
   .fill "#billing_address_2" (c.address_2.getD ""),
   .fill "#billing_neighborhood" c.neighborhood,
   .fill "#billing_city" c.city,
   .fill "#billing_phone" c.phone]

/-- The six actions of the region (billing_state) selection sequence: two
open/type/confirm cycles written out one after the other. -/
def regionActions : List Ev :=
  [.click "#select2-billing_state-container",
   .fill ".select2-search__field" "São Paulo",
   .press "Enter",
   .click "#select2-billing_state-container",
   .fill ".select2-search__field" "São Paulo",
   .press "Enter"]

/-- The prefix of a sequence of actions actually attempted when the i-th
action raises for the first i with `ok i = false`: the failing attempt itself
is performed (and raises), everything after it is skipped by the `except`. -/
def attemptsUntilFail (ok : Nat → Bool) : Nat → List Ev → List Ev
  | _, [] => []
  | i, e :: es => if ok i then e :: attemptsUntilFail ok (i + 1) es else [e]

/-- The region-selection block: one `try` around both cycles; any raise is
caught and logged (non-fatal). -/
def regionTrace (o : Oracle) : List Ev :=
  attemptsUntilFail o.regionOk 0 regionActions

/-- The WooCommerce order-processing-error banner string scanned for in the
checkout page content. -/
def bannerText : String := "Ocorreu um erro ao processar seu pedido"

/-- Whether `needle` occurs as a contiguous run inside `hay`. -/
def hasInfix (needle : List Char) : List Char → Bool
  | [] => needle.isEmpty
  | c :: cs => needle.isPrefixOf (c :: cs) || hasInfix needle cs

/-- `banner in html` (Python substring test). -/
def bannerIn (html : String) : Bool :=
  hasInfix bannerText.data html.data

/-- The PIX payment block: `is_checked` then `check` only when unchecked;
`isCheckedResult = none` models `is_checked` raising (whole block skipped,
non-fatal).  A raise of `check` itself is likewise caught and has no further
effect. -/
def pixTrace (o : Oracle) : List Ev :=
  match o.isCheckedResult with
  | none => [.isChecked "#payment_method_asaas-pix"]
  | some true => [.isChecked "#payment_method_asaas-pix"]
  | some false => [.isChecked "#payment_method_asaas-pix", .check "#payment_method_asaas-pix"]

/-- The interactions from the checkout navigation up to (and including) the
banner scan of the page content: goto, eleven billing fills, the region
sequence, one content read. -/
def checkoutPrefix (o : Oracle) (c : CheckoutInfo) : List Ev :=
  .goto CHECKOUT_URL :: (fillEvents c ++ regionTrace o ++ [.content])

/-- Everything after the cart loop: checkout navigation (fatal on failure),
billing fills, region selection, banner scan (fatal when present), PIX
selection, order submission (fatal on failure) and capture of the final page
URL.  Returns the (`checkout` state, `redirect_url`) pay-off and the trace. -/
def checkoutPhase (o : Oracle) (c : CheckoutInfo) : Except String (String × String) × List Ev :=
  if o.checkoutGotoOk then
    if bannerIn o.checkoutContent then
      (.error "Erro ao processar pedido na página WooCommerce.", checkoutPrefix o c)
    else if o.placeOrderOk then
      (.ok ("pedido_enviado", o.finalUrl),
        checkoutPrefix o c ++ pixTrace o ++ [.click "#place_order", .readUrl])
    else
      (.error "Falha ao finalizar o pedido ou redirecionar.",
        checkoutPrefix o c ++ pixTrace o ++ [.click "#place_order"])
  else
    (.error "checkout navigation failed", [.goto CHECKOUT_URL])

/-- The body of the big `try` of `process_request`: the cart loop followed by
the checkout stage; any error short-circuits (re-raised by the bare
`except ... raise`). -/
def runBody (o : Oracle) (p : Payload) : Except String Result × List Ev :=
  match cartLoop o p.produtos with
  | (.error e, t) => (.error e, t)
  | (.ok items, t) =>
    match checkoutPhase o p.checkout with
    | (.error e, t2) => (.error e, t ++ t2)
    | (.ok (st, ru), t2) => (.ok ⟨items, st, some ru⟩, t ++ t2)

/-- `process_request` after a successful session acquisition: the `try` body,
then the `finally` block releasing the browser session on every path. -/
def process_request (o : Oracle) (p : Payload) : Except String Result × List Ev :=
  let r := runBody o p
  (r.1, r.2 ++ [.release])

/-! ### Concrete fixtures for witnesses and counterexamples -/

/-- An environment in which every browser action succeeds, the checkout page
shows no error banner, PIX is not yet selected, and submission redirects to a
gateway URL. -/
def allOk : Oracle where
  gotoOk := fun _ => true
  fillQtyOk := fun _ => true
  addOk := fun _ => true
  itemContent := fun _ => ""
  checkoutGotoOk := true
  regionOk := fun _ => true
  checkoutContent := ""
  isCheckedResult := some false
  checkOk := true
  placeOrderOk := true
  finalUrl := "https://pay.example/pix/123"

/-- Like `allOk`, but every product-page navigation fails. -/
def oNavFail : Oracle := { allOk with gotoOk := fun _ => false }

/-- Like `allOk`, but the post-submit page URL is still the checkout page
(no redirect happened). -/
def oNoRedirect : Oracle := { allOk with finalUrl := CHECKOUT_URL }

/-- Like `allOk`, but the first region-selection action raises. -/
def oRegionFail : Oracle := { allOk with regionOk := fun _ => false }

/-- Like `allOk`, but the checkout page content carries the
order-processing-error banner. -/
def oBanner : Oracle := { allOk with checkoutContent := bannerText }

/-- Like `allOk`, but the PIX payment option is already selected. -/
def oPixSet : Oracle := { allOk with isCheckedResult := some true }

/-- Like `allOk`, but the PIX `is_checked` probe raises. -/
def oPixErr : Oracle := { allOk with isCheckedResult := none }

/-- Like `allOk`, but the `#place_order` click raises. -/
def oPlaceFail : Oracle := { allOk with placeOrderOk := false }

/-- A concrete billing info value. -/
def cInfo : CheckoutInfo where
  email := "a@b.c"
  first_name := "Ana"
  last_name := "Silva"
  cpf := "123"
  cep := "01000-000"
  address_1 := "Rua A"
  number := "10"
  address_2 := none
  neighborhood := "Centro"
  city := "Sao Paulo"
  state := "SP"
  phone := "11999999999"

/-- The per-line outcome `process_request` records for one product line:
`none` when the line is skipped without an `ItemOutcome` (bad format, or
navigation failure), `some` the recorded item otherwise.  (Lines whose
quantity fails to normalize abort the run instead and have no outcome.) -/
def lineOutcome (o : Oracle) (l : String) : Option Item :=
  match parseLine l with
  | none => none
  | some (url, qtyRaw) =>
    match normalize_qty qtyRaw with
    | none => none
    | some qty =>
      if o.gotoOk url then some ⟨url, qty, o.fillQtyOk url && o.addOk url⟩ else none

/-- Events belonging to the payment-selection or order-submission steps. -/
def isPaymentOrSubmitEv : Ev → Bool
  | .isChecked _ => true
  | .check _ => true
  | .click s => s == "#place_order"
  | .readUrl => true
  | _ => false

/-- List-level check of `twoFracFormat`, on the reversed character list. -/
def twoFracFormatL : List Char → Bool
  | b :: a :: d :: rest =>
    (d == '.') && a.isDigit && b.isDigit && rest.all (fun c => !(c == '.'))
  | _ => false

/-- Checks that a string ends in `.` followed by exactly two decimal digits,
with no other `.` anywhere (i.e. exactly two fractional digits). -/
def twoFracFormat (v : String) : Bool :=
  twoFracFormatL v.data.reverse

/-! ### Helper lemmas -/

theorem rsplitColon_eq_none (cs : List Char) (h : ':' ∉ cs) : rsplitColon cs = none := by
  induction cs with
  | nil => rfl
  | cons c cs ih =>
    simp only [List.mem_cons, not_or] at h
    simp [rsplitColon, ih h.2, h.1, Ne.symm h.1]

theorem parseLine_eq_none (s : String) (h : ':' ∉ s.data) : parseLine s = none := by
  simp [parseLine, rsplitColon_eq_none s.data h]

theorem doLine_skip (o : Oracle) (l : String) (h : ':' ∉ l.data) :
    doLine o l = (.ok none, []) := by
  simp [doLine, parseLine_eq_none l h]

theorem attemptsUntilFail_sub (ok : Nat → Bool) :
    ∀ (es : List Ev) (i : Nat) (e : Ev), e ∈ attemptsUntilFail ok i es → e ∈ es := by
  intro es
  induction es with
  | nil => intro i e h; simp [attemptsUntilFail] at h
  | cons a es ih =>
    intro i e h
    simp only [attemptsUntilFail] at h
    split at h
    · rcases List.mem_cons.mp h with h | h
      · simp [h]
      · exact List.mem_cons_of_mem a (ih (i + 1) e h)
    · rw [List.mem_singleton] at h
      simp [h]

/-- Every browser interaction of one cart line is a navigation, the quantity
fill, the add-to-cart click, or the page-content read of the except branch. -/
theorem doLine_ev_shape (o : Oracle) (l : String) :
    ∀ e ∈ (doLine o l).2, (∃ u, e = .goto u) ∨ (∃ v, e = .fill "input.qty" v) ∨
      e = .click "button[name=add-to-cart]" ∨ e = .content := by
  intro e he
  unfold doLine at he
  split at he
  · simp at he
  · split at he
    · simp at he
    · split at he
      · split at he
        · split at he
          · simp at he
            rcases he with h | h | h <;> simp [h]
          · simp at he
            rcases he with h | h | h | h <;> simp [h]
        · simp at he
          rcases he with h | h | h <;> simp [h]
      · simp at he
        simp [he]

theorem doLine_no_pay (o : Oracle) (l : String) :
    ∀ e ∈ (doLine o l).2, isPaymentOrSubmitEv e = false := by
  intro e he
  rcases doLine_ev_shape o l e he with ⟨u, h⟩ | ⟨v, h⟩ | h | h <;> subst h
  · rfl
  · rfl
  · decide
  · rfl

theorem doLine_no_release (o : Oracle) (l : String) :
    Ev.release ∉ (doLine o l).2 := by
  intro h
  rcases doLine_ev_shape o l _ h with ⟨u, h⟩ | ⟨v, h⟩ | h | h <;> simp at h

theorem cartLoop_ev_shape (o : Oracle) (ls : List String) :
    ∀ e ∈ (cartLoop o ls).2, (∃ u, e = .goto u) ∨ (∃ v, e = .fill "input.qty" v) ∨
      e = .click "button[name=add-to-cart]" ∨ e = .content := by
  induction ls with
  | nil => intro e he; simp [cartLoop] at he
  | cons l ls ih =>
    intro e he
    simp only [cartLoop] at he
    split at he
    next msg t heq =>
      exact doLine_ev_shape o l e (by rw [heq]; exact he)
    next t heq =>
      rw [List.mem_append] at he
      rcases he with h | h
      · exact doLine_ev_shape o l e (by rw [heq]; exact h)
      · exact ih e h
    next it t heq =>
      rw [List.mem_append] at he
      rcases he with h | h
      · exact doLine_ev_shape o l e (by rw [heq]; exact h)
      · exact ih e h

theorem cartLoop_no_pay (o : Oracle) (ls : List String) :
    ∀ e ∈ (cartLoop o ls).2, isPaymentOrSubmitEv e = false := by
  intro e he
  rcases cartLoop_ev_shape o ls e he with ⟨u, h⟩ | ⟨v, h⟩ | h | h <;> subst h
  · rfl
  · rfl
  · decide
  · rfl

theorem cartLoop_no_release (o : Oracle) (ls : List String) :
    Ev.release ∉ (cartLoop o ls).2 := by
  intro h
  rcases cartLoop_ev_shape o ls _ h with ⟨u, h⟩ | ⟨v, h⟩ | h | h <;> simp at h

theorem fillEvents_shape (c : CheckoutInfo) :
    ∀ e ∈ fillEvents c, ∃ s v, e = .fill s v := by
  intro e he
  simp only [fillEvents, List.mem_cons] at he
  rcases he with h | h | h | h | h | h | h | h | h | h | h | h <;> first
    | (exact ⟨_, _, h⟩)
    | simp at h

theorem regionActions_no_pay :
    ∀ e ∈ regionActions, isPaymentOrSubmitEv e = false := by decide

theorem checkoutPrefix_no_pay (o : Oracle) (c : CheckoutInfo) :
    ∀ e ∈ checkoutPrefix o c, isPaymentOrSubmitEv e = false := by
  intro e he
  simp only [checkoutPrefix, List.mem_cons, List.mem_append, List.mem_singleton] at he
  rcases he with h | ((h | h) | (h | h))
  · simp [h, isPaymentOrSubmitEv]
  · obtain ⟨s, v, hs⟩ := fillEvents_shape c e h
    simp [hs, isPaymentOrSubmitEv]
  · exact regionActions_no_pay e (attemptsUntilFail_sub o.regionOk regionActions 0 e h)
  · simp [h, isPaymentOrSubmitEv]
  · simp at h

theorem regionActions_no_release : Ev.release ∉ regionActions := by decide

theorem checkoutPrefix_no_release (o : Oracle) (c : CheckoutInfo) :
    Ev.release ∉ checkoutPrefix o c := by
  intro h
  simp only [checkoutPrefix, List.mem_cons, List.mem_append, List.mem_singleton] at h
  rcases h with h | ((h | h) | (h | h))
  · simp at h
  · obtain ⟨s, v, hs⟩ := fillEvents_shape c _ h
    simp at hs
  · exact regionActions_no_release (attemptsUntilFail_sub o.regionOk regionActions 0 _ h)
  · simp at h
  · simp at h

theorem pixTrace_no_release (o : Oracle) : Ev.release ∉ pixTrace o := by
  unfold pixTrace
  rcases o.isCheckedResult with _ | b
  · simp
  · rcases b <;> simp

theorem checkoutPhase_no_release (o : Oracle) (c : CheckoutInfo) :
    Ev.release ∉ (checkoutPhase o c).2 := by
  intro h
  unfold checkoutPhase at h
  split at h
  · split at h
    · exact checkoutPrefix_no_release o c h
    · split at h <;>
      · simp only [List.mem_append, List.mem_cons, List.mem_singleton] at h
        rcases h with (h | h) | h
        · exact checkoutPrefix_no_release o c h
        · exact pixTrace_no_release o h
        · simp at h
  · simp at h

theorem cartLoop_skip (o : Oracle) (l : String) (h : ':' ∉ l.data) :
    ∀ ls₁ ls₂, cartLoop o (ls₁ ++ l :: ls₂) = cartLoop o (ls₁ ++ ls₂) := by
  intro ls₁
  induction ls₁ with
  | nil =>
    intro ls₂
    simp only [List.nil_append]
    simp [cartLoop, doLine_skip o l h]
  | cons a ls₁ ih =>
    intro ls₂
    simp only [List.cons_append, cartLoop, List.append_eq]
    rw [ih ls₂]

theorem doLine_fst (o : Oracle) (l : String) (oi : Option Item)
    (h : (doLine o l).1 = .ok oi) : oi = lineOutcome o l := by
  rcases hp : parseLine l with _ | ⟨url, qtyRaw⟩
  · simp [doLine, lineOutcome, hp] at h ⊢
    exact h.symm
  · rcases hn : normalize_qty qtyRaw with _ | qty
    · simp [doLine, hp, hn] at h
    · by_cases hg : o.gotoOk url <;>
        by_cases hf : o.fillQtyOk url <;>
          by_cases ha : o.addOk url <;>
            simp_all [doLine, lineOutcome, hp, hn]

theorem cartLoop_items (o : Oracle) :
    ∀ ls items, (cartLoop o ls).1 = .ok items →
      items = ls.filterMap (lineOutcome o) := by
  intro ls
  induction ls with
  | nil =>
    intro items h
    simp only [cartLoop] at h
    simp only [List.filterMap_nil]
    injection h with h
    exact h.symm
  | cons l ls ih =>
    intro items h
    simp only [cartLoop] at h
    split at h
    next msg t heq => simp at h
    next t heq =>
      have hout : lineOutcome o l = none := by
        have := doLine_fst o l none (by rw [heq])
        exact this.symm
      simp only [List.filterMap_cons, hout]
      exact ih items h
    next it t heq =>
      have hout : lineOutcome o l = some it := by
        have := doLine_fst o l (some it) (by rw [heq])
        exact this.symm
      rcases hc : (cartLoop o ls).1 with msg | items'
      · rw [hc] at h; simp [Except.map] at h
      · rw [hc] at h
        simp only [Except.map] at h
        injection h with h
        rw [List.filterMap_cons, hout, ← h, ih items' hc]

theorem doLine_fst_ok (o : Oracle) (l : String)
    (h : ∀ url q, parseLine l = some (url, q) → normalize_qty q ≠ none) :
    (doLine o l).1 = .ok (lineOutcome o l) := by
  rcases hp : parseLine l with _ | ⟨url, qtyRaw⟩
  · simp [doLine, lineOutcome, hp]
  · rcases hn : normalize_qty qtyRaw with _ | qty
    · exact absurd hn (h url qtyRaw hp)
    · by_cases hg : o.gotoOk url <;>
        by_cases hf : o.fillQtyOk url <;>
          by_cases ha : o.addOk url <;>
            simp_all [doLine, lineOutcome, hp, hn]

theorem cartLoop_isOk (o : Oracle) :
    ∀ ls, (∀ l ∈ ls, ∀ url q, parseLine l = some (url, q) → normalize_qty q ≠ none) →
      (cartLoop o ls).1 = .ok (ls.filterMap (lineOutcome o)) := by
  intro ls
  induction ls with
  | nil => intro _; simp [cartLoop]
  | cons l ls ih =>
    intro h
    have h1 := doLine_fst_ok o l (h l (List.mem_cons_self l ls))
    have h2 := ih (fun l' hl' => h l' (List.mem_cons_of_mem l hl'))
    simp only [cartLoop]
    split
    next msg t heq => rw [heq] at h1; simp at h1
    next t heq =>
      rw [heq] at h1
      simp only at h1
      have : lineOutcome o l = none := by simpa using h1.symm
      simp [List.filterMap_cons, this, h2]
    next it t heq =>
      rw [heq] at h1
      simp only at h1
      have : lineOutcome o l = some it := by simpa using h1.symm
      simp [List.filterMap_cons, this, h2, Except.map]

theorem runBody_no_release (o : Oracle) (p : Payload) :
    Ev.release ∉ (runBody o p).2 := by
  intro h
  unfold runBody at h
  split at h
  next e t heq =>
    have := cartLoop_no_release o p.produtos
    rw [heq] at this
    exact this h
  next items t heq =>
    split at h
    next e2 t2 heq2 =>
      rw [List.mem_append] at h
      rcases h with h | h
      · have := cartLoop_no_release o p.produtos
        rw [heq] at this
        exact this h
      · have := checkoutPhase_no_release o p.checkout
        rw [heq2] at this
        exact this h
    next st ru t2 heq2 =>
      rw [List.mem_append] at h
      rcases h with h | h
      · have := cartLoop_no_release o p.produtos
        rw [heq] at this
        exact this h
      · have := checkoutPhase_no_release o p.checkout
        rw [heq2] at this
        exact this h

theorem digitChar_isDigit : ∀ k, k < 10 → (Nat.digitChar k).isDigit = true := by decide

theorem isDigit_ne_dot (c : Char) (h : c.isDigit = true) : (c == '.') = false := by
  by_cases hc : c = '.'
  · subst hc
    exact absurd h (by decide)
  · simp [hc]

theorem natToDecAux_digits :
    ∀ fuel n, ∀ c ∈ natToDecAux fuel n, c.isDigit = true := by
  intro fuel
  induction fuel with
  | zero => intro n c hc; simp [natToDecAux] at hc
  | succ fuel ih =>
    intro n c hc
    simp only [natToDecAux] at hc
    split at hc
    next hn =>
      rw [List.mem_singleton] at hc
      subst hc
      exact digitChar_isDigit n hn
    next hn =>
      rw [List.mem_append, List.mem_singleton] at hc
      rcases hc with hc | hc
      · exact ih (n / 10) c hc
      · subst hc
        exact digitChar_isDigit (n % 10) (Nat.mod_lt n (by omega))

theorem natToDec_digits (n : Nat) : ∀ c ∈ natToDec n, c.isDigit = true :=
  natToDecAux_digits (n + 1) n

/-- Every value `format2` produces has exactly two fractional digits. -/
theorem format2_twoFrac (d : Dec) : twoFracFormat (format2 d) = true := by
  unfold format2 twoFracFormat format2List twoDigits
  show twoFracFormatL (List.reverse _) = true
  rw [show ((if d.scaled100 < 0 then ['-'] else []) ++
      natToDec (d.scaled100.natAbs / 100) ++ ['.'] ++
      [Nat.digitChar (d.scaled100.natAbs % 100 / 10 % 10),
       Nat.digitChar (d.scaled100.natAbs % 100 % 10)]).reverse =
      Nat.digitChar (d.scaled100.natAbs % 100 % 10) ::
        Nat.digitChar (d.scaled100.natAbs % 100 / 10 % 10) :: '.' ::
        ((natToDec (d.scaled100.natAbs / 100)).reverse ++
          (if d.scaled100 < 0 then ['-'] else []).reverse) from by simp]
  simp only [twoFracFormatL, Bool.and_eq_true, List.all_append, List.all_reverse]
  refine ⟨⟨⟨by decide, digitChar_isDigit _ (Nat.mod_lt _ (by omega))⟩,
    digitChar_isDigit _ (Nat.mod_lt _ (by omega))⟩, ?_, ?_⟩
  · rw [List.all_eq_true]
    intro c hc
    simp only [Bool.not_eq_true']
    exact isDigit_ne_dot c (natToDec_digits _ c hc)
  · split <;> decide

theorem attemptsUntilFail_all (ok : Nat → Bool) :
    ∀ (es : List Ev) (i : Nat), (∀ j, ok j = true) → attemptsUntilFail ok i es = es := by
  intro es
  induction es with
  | nil => intro i _; rfl
  | cons a es ih =>
    intro i h
    simp only [attemptsUntilFail, h i, if_true]
    rw [ih (i + 1) h]

/-! ### Claims -/

/-- C1 counterexample: the line `"u:abc"` parses, its quantity `"abc"` fails
normalization, and — contrary to the claim — the whole run aborts with the
propagated `ValueError`; no `ItemOutcome` with `added=false` is recorded and
no further processing happens (the trace holds only the session release). -/
theorem c1_cex :
    parseLine "u:abc" = some ("u", "abc") ∧ normalize_qty "abc" = none ∧
    process_request allOk ⟨["u:abc"], cInfo⟩ =
      (.error "could not convert string to float: abc", [Ev.release]) := by
  refine ⟨by decide, by decide, by decide⟩

/-- C1 (amended): a normalization failure on a parsed line aborts the whole
run (the exception propagates out of the product loop); all OTHER
cart-population failures (navigation, add-to-cart) are absorbed per line, so
when every parsed line's quantity normalizes the cart stage never aborts. -/
theorem c1_amended :
    (∀ (o : Oracle) (c : CheckoutInfo) (l url qraw : String),
      parseLine l = some (url, qraw) → normalize_qty qraw = none →
        (process_request o ⟨[l], c⟩).1 =
          .error ("could not convert string to float: " ++ qraw))
    ∧ (∀ (o : Oracle) (ls : List String),
        (∀ l ∈ ls, ∀ url q, parseLine l = some (url, q) → normalize_qty q ≠ none) →
          (cartLoop o ls).1 = .ok (ls.filterMap (lineOutcome o))) := by
  constructor
  · intro o c l url qraw hp hn
    simp [process_request, runBody, cartLoop, doLine, hp, hn]
  · intro o ls h
    exact cartLoop_isOk o ls h

/-- C1 witness: the amended statement applied at `"u:abc"` (aborting) and at
a list whose single line normalizes (cart stage succeeds). -/
theorem c1_w :
    (process_request allOk ⟨["u:abc"], cInfo⟩).1 =
      .error ("could not convert string to float: " ++ "abc") ∧
    (cartLoop allOk ["x:1"]).1 = .ok (["x:1"].filterMap (lineOutcome allOk)) := by
  refine ⟨c1_amended.1 allOk cInfo "u:abc" "u" "abc" (by decide) (by decide),
    c1_amended.2 allOk ["x:1"] ?_⟩
  intro l hl url q hp
  rw [List.mem_singleton] at hl
  subst hl
  rw [show parseLine "x:1" = some ("x", "1") from by decide] at hp
  rw [Option.some.injEq, Prod.mk.injEq] at hp
  obtain ⟨h1, h2⟩ := hp
  subst h2
  decide

/-- C2 counterexample: the line `"u:1"` parses successfully, its navigation
fails, and — contrary to the claim — NO `ItemOutcome` is recorded for it
(the loop `continue`s without appending); the run otherwise completes. -/
theorem c2_cex :
    parseLine "u:1" = some ("u", "1") ∧
    (process_request oNavFail ⟨["u:1"], cInfo⟩).1 =
      .ok ⟨[], "pedido_enviado", some "https://pay.example/pix/123"⟩ := by
  refine ⟨by decide, by decide⟩

/-- C2 (amended): on a successful run the recorded items are exactly, and in
input order, the per-line outcomes of those lines that parse, normalize AND
navigate successfully; a line whose navigation fails is skipped with no
`ItemOutcome` at all. -/
theorem c2_amended (o : Oracle) (p : Payload) (r : Result)
    (h : (process_request o p).1 = .ok r) :
    r.items = p.produtos.filterMap (lineOutcome o) := by
  simp only [process_request] at h
  unfold runBody at h
  split at h
  next e t heq => simp at h
  next items t heq =>
    split at h
    next e2 t2 heq2 => simp at h
    next st ru t2 heq2 =>
      injection h with h
      rw [← h]
      exact cartLoop_items o p.produtos items (by rw [heq])

/-- C2 witness: the amended statement at a concrete successful run. -/
theorem c2_w :
    Result.items ⟨[⟨"https://shop/p1", "0.50", true⟩], "pedido_enviado",
        some "https://pay.example/pix/123"⟩ =
      List.filterMap (lineOutcome allOk) ["https://shop/p1:0,5"] :=
  c2_amended allOk ⟨["https://shop/p1:0,5"], cInfo⟩
    ⟨[⟨"https://shop/p1", "0.50", true⟩], "pedido_enviado",
      some "https://pay.example/pix/123"⟩ (by decide)

/-- C3 counterexample: when the post-submit page URL is still the checkout
page (i.e. no redirect took place), the run is nevertheless reported as a
success, with that URL recorded as `redirect_url` — contrary to the claim
that the absence of a post-submit redirect aborts the run. -/
theorem c3_cex :
    (process_request oNoRedirect ⟨[], cInfo⟩).1 =
      .ok ⟨[], "pedido_enviado", some CHECKOUT_URL⟩ := by decide

/-- C3 (amended): failure of the `#place_order` click is fatal — such a run
is never reported as success; but no redirect check exists: any successful
run simply records the current page URL, whatever it is, as `redirect_url`. -/
theorem c3_amended :
    (∀ (o : Oracle) (p : Payload), o.placeOrderOk = false →
      (process_request o p).1.isOk = false)
    ∧ (∀ (o : Oracle) (p : Payload) (r : Result), (process_request o p).1 = .ok r →
        r.checkout = "pedido_enviado" ∧ r.redirect_url = some o.finalUrl) := by
  constructor
  · intro o p hpo
    simp only [process_request]
    unfold runBody
    split
    next e t heq => rfl
    next items t heq =>
      split
      next e2 t2 heq2 => rfl
      next st ru t2 heq2 =>
        exfalso
        unfold checkoutPhase at heq2
        split at heq2
        · split at heq2
          · simp at heq2
          · rw [if_neg (by simp [hpo])] at heq2
            simp at heq2
        · simp at heq2
  · intro o p r h
    simp only [process_request] at h
    unfold runBody at h
    split at h
    next e t heq => simp at h
    next items t heq =>
      split at h
      next e2 t2 heq2 => simp at h
      next st ru t2 heq2 =>
        injection h with h
        unfold checkoutPhase at heq2
        split at heq2
        · split at heq2
          · simp at heq2
          · split at heq2
            · rw [Prod.mk.injEq] at heq2
              injection heq2.1 with hsr
              rw [Prod.mk.injEq] at hsr
              rw [← h]
              exact ⟨by rw [← hsr.1], by rw [← hsr.2]⟩
            · simp at heq2
        · simp at heq2

/-- C3 witness: the amended statement at a failing click and at a normal
successful run. -/
theorem c3_w :
    (process_request oPlaceFail ⟨[], cInfo⟩).1.isOk = false ∧
    (Result.checkout ⟨[], "pedido_enviado", some "https://pay.example/pix/123"⟩ =
        "pedido_enviado" ∧
      Result.redirect_url ⟨[], "pedido_enviado", some "https://pay.example/pix/123"⟩ =
        some allOk.finalUrl) :=
  ⟨c3_amended.1 oPlaceFail ⟨[], cInfo⟩ rfl,
   c3_amended.2 allOk ⟨[], cInfo⟩
     ⟨[], "pedido_enviado", some "https://pay.example/pix/123"⟩ (by decide)⟩

/-- C4: when the order-processing-error banner is in the checkout page
content, the run aborts (never reported success) and the trace contains no
payment-selection or order-submission interaction at all. -/
theorem c4_banner_aborts (o : Oracle) (p : Payload)
    (hb : bannerIn o.checkoutContent = true) :
    (process_request o p).1.isOk = false ∧
    (process_request o p).2.all (fun e => !isPaymentOrSubmitEv e) = true := by
  have hrel : (Ev.release :: []).all (fun e => !isPaymentOrSubmitEv e) = true := by decide
  simp only [process_request]
  unfold runBody
  split
  next e t heq =>
    refine ⟨rfl, ?_⟩
    rw [List.all_append, Bool.and_eq_true]
    refine ⟨?_, hrel⟩
    rw [List.all_eq_true]
    intro e' he'
    have := cartLoop_no_pay o p.produtos e' (by rw [heq]; exact he')
    simp [this]
  next items t heq =>
    have hcp : (checkoutPhase o p.checkout).1.isOk = false ∧
        (checkoutPhase o p.checkout).2.all (fun e => !isPaymentOrSubmitEv e) = true := by
      unfold checkoutPhase
      by_cases hg : o.checkoutGotoOk
      · rw [if_pos hg, if_pos hb]
        refine ⟨rfl, ?_⟩
        rw [List.all_eq_true]
        intro e' he'
        have := checkoutPrefix_no_pay o p.checkout e' he'
        simp [this]
      · rw [if_neg hg]
        exact ⟨rfl, by decide⟩
    split
    next e2 t2 heq2 =>
      refine ⟨rfl, ?_⟩
      rw [List.all_append, List.all_append, Bool.and_eq_true, Bool.and_eq_true]
      refine ⟨⟨?_, ?_⟩, hrel⟩
      · rw [List.all_eq_true]
        intro e' he'
        have := cartLoop_no_pay o p.produtos e' (by rw [heq]; exact he')
        simp [this]
      · have := hcp.2
        rw [heq2] at this
        exact this
    next st ru t2 heq2 =>
      exfalso
      have := hcp.1
      rw [heq2] at this
      simp [Except.isOk, Except.toBool] at this

/-- C4 witness: a run whose checkout page carries the banner. -/
theorem c4_w :
    (process_request oBanner ⟨[], cInfo⟩).1.isOk = false ∧
    (process_request oBanner ⟨[], cInfo⟩).2.all (fun e => !isPaymentOrSubmitEv e) = true :=
  c4_banner_aborts oBanner ⟨[], cInfo⟩ (by decide)

/-- C5: the browser session is released exactly once on every run, whatever
the oracle does (success, per-item failures, or any fatal abort). -/
theorem c5_release_once (o : Oracle) (p : Payload) :
    (process_request o p).2.count Ev.release = 1 := by
  simp only [process_request]
  rw [List.count_append]
  rw [List.count_eq_zero.mpr (runBody_no_release o p)]
  decide

/-- C6 counterexample: when the first region-selection action raises, the
run still reaches region selection (the open-dropdown click is attempted)
and continues to a successful end, but ZERO confirm key-presses occur — so
the open/type/confirm cycle is NOT performed twice; the second cycle is
skipped because the single `try` swallows the first cycle's exception. -/
theorem c6_cex :
    (process_request oRegionFail ⟨[], cInfo⟩).1 =
      .ok ⟨[], "pedido_enviado", some "https://pay.example/pix/123"⟩ ∧
    Ev.click "#select2-billing_state-container" ∈
      (process_request oRegionFail ⟨[], cInfo⟩).2 ∧
    (process_request oRegionFail ⟨[], cInfo⟩).2.count (Ev.press "Enter") = 0 := by
  refine ⟨by decide, by decide, by decide⟩

/-- C6 (amended): the two open/type/confirm cycles run back-to-back with no
success check between them, so when no action raises exactly two full cycles
are performed; but an exception anywhere in the sequence (e.g. in the first
action) skips everything after it, including the second cycle; failure of
the region sequence never aborts the run. -/
theorem c6_amended :
    (∀ o : Oracle, (∀ j, o.regionOk j = true) → regionTrace o = regionActions)
    ∧ (∀ o : Oracle, o.regionOk 0 = false →
        regionTrace o = [Ev.click "#select2-billing_state-container"])
    ∧ (∀ (o : Oracle) (c : CheckoutInfo), o.checkoutGotoOk = true →
        bannerIn o.checkoutContent = false → o.placeOrderOk = true →
          (checkoutPhase o c).1 = .ok ("pedido_enviado", o.finalUrl)) := by
  refine ⟨?_, ?_, ?_⟩
  · intro o h
    exact attemptsUntilFail_all o.regionOk regionActions 0 h
  · intro o h
    simp [regionTrace, regionActions, attemptsUntilFail, h]
  · intro o c hg hb hp
    unfold checkoutPhase
    rw [if_pos hg, if_neg (by simp [hb]), if_pos hp]

/-- C6 witness: the amended statement at an all-succeeding oracle (two full
cycles) and at one whose first region action raises (sequence truncated,
run still succeeds). -/
theorem c6_w :
    regionTrace allOk = regionActions ∧
    regionTrace oRegionFail = [Ev.click "#select2-billing_state-container"] ∧
    (checkoutPhase oRegionFail cInfo).1 = .ok ("pedido_enviado", oRegionFail.finalUrl) :=
  ⟨c6_amended.1 allOk (fun _ => rfl),
   c6_amended.2.1 oRegionFail rfl,
   c6_amended.2.2 oRegionFail cInfo rfl (by decide) rfl⟩

/-- C7: payment selection is check-before-set idempotent — the `check`
action occurs in the trace iff the `is_checked` probe reported the PIX
option unselected; and whatever the probe or the `check` action do (probe
raising included), the run proceeds to submission and succeeds. -/
theorem c7_pix_idempotent (o : Oracle) (c : CheckoutInfo)
    (hg : o.checkoutGotoOk = true) (hb : bannerIn o.checkoutContent = false) :
    (o.isCheckedResult = some true →
      Ev.check "#payment_method_asaas-pix" ∉ (checkoutPhase o c).2)
    ∧ (o.isCheckedResult = some false →
        Ev.check "#payment_method_asaas-pix" ∈ (checkoutPhase o c).2)
    ∧ (o.isCheckedResult = none →
        Ev.check "#payment_method_asaas-pix" ∉ (checkoutPhase o c).2)
    ∧ (o.placeOrderOk = true →
        (checkoutPhase o c).1 = .ok ("pedido_enviado", o.finalUrl)) := by
  have hnotpre : Ev.check "#payment_method_asaas-pix" ∉ checkoutPrefix o c := by
    intro hmem
    have := checkoutPrefix_no_pay o c _ hmem
    simp [isPaymentOrSubmitEv] at this
  have htrace : (checkoutPhase o c).2 =
      checkoutPrefix o c ++ pixTrace o ++
        (if o.placeOrderOk then [Ev.click "#place_order", Ev.readUrl]
         else [Ev.click "#place_order"]) := by
    unfold checkoutPhase
    rw [if_pos hg, if_neg (by simp [hb])]
    by_cases hp : o.placeOrderOk
    · rw [if_pos hp, if_pos hp]
    · rw [if_neg hp, if_neg hp]
  refine ⟨?_, ?_, ?_, ?_⟩
  · intro hc hmem
    rw [htrace] at hmem
    simp only [List.mem_append] at hmem
    rcases hmem with (h | h) | h
    · exact hnotpre h
    · rw [pixTrace, hc] at h
      simp at h
    · split at h <;> simp at h
  · intro hc
    rw [htrace]
    simp only [List.mem_append]
    left; right
    rw [pixTrace, hc]
    simp
  · intro hc hmem
    rw [htrace] at hmem
    simp only [List.mem_append] at hmem
    rcases hmem with (h | h) | h
    · exact hnotpre h
    · rw [pixTrace, hc] at h
      simp at h
    · split at h <;> simp at h
  · intro hp
    unfold checkoutPhase
    rw [if_pos hg, if_neg (by simp [hb]), if_pos hp]

/-- C7 witness: the idempotence facts at concrete oracles — option already
selected (no `check`), option unselected (`check` present), probe raising
(no `check`, run still reaches a successful submission). -/
theorem c7_w :
    Ev.check "#payment_method_asaas-pix" ∉ (checkoutPhase oPixSet cInfo).2 ∧
    Ev.check "#payment_method_asaas-pix" ∈ (checkoutPhase allOk cInfo).2 ∧
    Ev.check "#payment_method_asaas-pix" ∉ (checkoutPhase oPixErr cInfo).2 ∧
    (checkoutPhase oPixErr cInfo).1 = .ok ("pedido_enviado", oPixErr.finalUrl) :=
  ⟨(c7_pix_idempotent oPixSet cInfo rfl (by decide)).1 rfl,
   (c7_pix_idempotent allOk cInfo rfl (by decide)).2.1 rfl,
   (c7_pix_idempotent oPixErr cInfo rfl (by decide)).2.2.1 rfl,
   (c7_pix_idempotent oPixErr cInfo rfl (by decide)).2.2.2 rfl⟩

/-- C8 counterexample: `float("-1")` succeeds, so `normalize_qty` accepts
`"-1"` and renders `"-1.00"` — a NEGATIVE value (nothing in the code checks
the sign); and `float("inf")` succeeds too, so `normalize_qty` accepts
`"inf"` and renders `"inf"` — neither finite nor carrying two fractional
digits.  Both contradict the claimed invariant for accepted strings. -/
theorem c8_cex :
    normalize_qty "-1" = some "-1.00" ∧ pyFloat "-1" = some (.finite ⟨-1, 0⟩) ∧
    Dec.toRat ⟨-1, 0⟩ < 0 ∧
    normalize_qty "inf" = some "inf" ∧ twoFracFormat "inf" = false := by
  refine ⟨by decide, by decide, ?_, by decide, by decide⟩
  norm_num [Dec.toRat]

/-- C8 (amended): `"0,5"` normalizes to `"0.50"` and `"2"` to `"2.00"`
(comma accepted as decimal separator); every accepted quantity string is
rendered with exactly two fractional digits unless it is one of the
non-finite renderings `"inf"`, `"-inf"`, `"nan"` — so neither the
non-negativity nor the finiteness of accepted values holds. -/
theorem c8_amended :
    normalize_qty "0,5" = some "0.50" ∧ normalize_qty "2" = some "2.00" ∧
    ∀ s v, normalize_qty s = some v →
      twoFracFormat v = true ∨ v = "inf" ∨ v = "-inf" ∨ v = "nan" := by
  refine ⟨by decide, by decide, ?_⟩
  intro s v h
  unfold normalize_qty at h
  rcases hp : pyFloat (String.mk (s.data.map (fun c => if c = ',' then '.' else c)))
      with _ | pf
  · rw [hp] at h
    simp at h
  · rw [hp] at h
    rw [show Option.map formatFixed2 (some pf) = some (formatFixed2 pf) from rfl] at h
    injection h with h
    rcases pf with d | neg | _
    · left
      rw [← h]
      exact format2_twoFrac d
    · rcases neg with _ | _
      · right; left
        rw [← h]
        rfl
      · right; right; left
        rw [← h]
        rfl
    · right; right; right
      rw [← h]
      rfl

/-- C8 witness: the amended disjunction at a concrete finite accepted input
(the two-fractional-digit branch). -/
theorem c8_w :
    twoFracFormat "0.05" = true ∨ "0.05" = "inf" ∨ "0.05" = "-inf" ∨ "0.05" = "nan" :=
  c8_amended.2.2 "0,05" "0.05" (by decide)

/-- C9: a product line with no `:` separator is skipped entirely — the run
on a list containing it is literally identical (same result, same browser
interactions) to the run on the list without it. -/
theorem c9_no_colon_skipped (o : Oracle) (c : CheckoutInfo)
    (ls₁ ls₂ : List String) (l : String) (h : ':' ∉ l.data) :
    process_request o ⟨ls₁ ++ l :: ls₂, c⟩ = process_request o ⟨ls₁ ++ ls₂, c⟩ := by
  simp only [process_request]
  unfold runBody
  rw [cartLoop_skip o l h ls₁ ls₂]

/-- C9 witness: a separator-less line among none. -/
theorem c9_w :
    process_request allOk ⟨["no-separator-line"], cInfo⟩ =
      process_request allOk ⟨[], cInfo⟩ :=
  c9_no_colon_skipped allOk cInfo [] [] "no-separator-line" (by decide)

/-- C10: the run is oblivious to the billing `state` field — two requests
differing only in `state` produce identical results and identical browser
traces; the fill mapping has exactly eleven fields, none of which is
`#billing_state`; the region text typed is the constant `"São Paulo"`. -/
theorem c10_state_noninterference (o : Oracle) (produtos : List String)
    (c : CheckoutInfo) (s : String) :
    process_request o ⟨produtos, c⟩ = process_request o ⟨produtos, { c with state := s }⟩
    ∧ (fillEvents c).length = 11
    ∧ (∀ v, Ev.fill "#billing_state" v ∉ fillEvents c)
    ∧ Ev.fill ".select2-search__field" "São Paulo" ∈ regionActions := by
  refine ⟨?_, rfl, ?_, by decide⟩
  · cases c
    rfl
  · intro v hmem
    simp only [fillEvents, List.mem_cons] at hmem
    rcases hmem with h | h | h | h | h | h | h | h | h | h | h | h <;>
      first
        | (exact absurd (Ev.fill.inj h).1 (by decide))
        | simp at h

end CheckoutBot
